import Mathlib

/-!  Shallow embedding of the envqmon web application (dashboard page and
analytics page).  Numeric sensor fields are embedded as rationals, JS
`Number.parseInt` as an `Option Int` (with `none` standing for `NaN`), and
the React state updates as explicit state-transition functions.  -/

namespace EnvQMon

/-- A registered sensor device (`interface Device` in both pages). -/
structure Device where
  device_id : String
  device_name : String
  device_imei : String
  is_active : Bool
  user_id : String
  createdAt : String
  updatedAt : String
  deriving DecidableEq, Repr

/-- One latest reading (`interface DeviceData` in src/app/dashboard/page.tsx).
`recorded_at` is a string-encoded Unix epoch in seconds. -/
structure DeviceData where
  id : String
  device_id : String
  temperature : ℚ
  humidity : ℚ
  pressure : ℚ
  co : ℚ
  co2 : ℚ
  methane : ℚ
  lpg : ℚ
  pm25 : ℚ
  pm10 : ℚ
  noise : ℚ
  light : ℚ
  recorded_at : String
  deriving DecidableEq, Repr

/-- One range reading (`interface RangeData` in src/app/analytics/page.tsx);
same field layout as `DeviceData`. -/
structure RangeData where
  id : String
  device_id : String
  temperature : ℚ
  humidity : ℚ
  pressure : ℚ
  co : ℚ
  co2 : ℚ
  methane : ℚ
  lpg : ℚ
  pm25 : ℚ
  pm10 : ℚ
  noise : ℚ
  light : ℚ
  recorded_at : String
  deriving DecidableEq, Repr

/-- Hexadecimal digit test used by `Number.parseInt` with a `0x` prefix. -/
def isHexDigitJS (c : Char) : Bool :=
  c.isDigit || (('a' ≤ c) && (c ≤ 'f')) || (('A' ≤ c) && (c ≤ 'F'))

/-- Value of one hexadecimal digit. -/
def hexDigitVal (c : Char) : Nat :=
  if c.isDigit then c.toNat - '0'.toNat
  else if ('a' ≤ c) && (c ≤ 'f') then c.toNat - 'a'.toNat + 10
  else c.toNat - 'A'.toNat + 10

/-- Accumulate a digit list in the given radix. -/
def digitsToNat (radix : Nat) (ds : List Char) : Nat :=
  ds.foldl (fun n c => n * radix + hexDigitVal c) 0

/-- JS `Number.parseInt(s)` with the radix argument omitted: skip leading
whitespace, read an optional sign, honour a `0x`/`0X` prefix as radix 16,
otherwise read leading decimal digits, stopping at the first other
character; `none` models the `NaN` result when no digit is found. -/
def parseIntJS (s : String) : Option Int :=
  let cs := s.data.dropWhile Char.isWhitespace
  let signed : Int × List Char :=
    match cs with
    | '-' :: rest => (-1, rest)
    | '+' :: rest => (1, rest)
    | _ => (1, cs)
  let sign := signed.1
  let body := signed.2
  match body with
  | '0' :: x :: rest =>
    if x = 'x' ∨ x = 'X' then
      let ds := rest.takeWhile isHexDigitJS
      if ds.isEmpty then none else some (sign * (digitsToNat 16 ds : Int))
    else
      let ds := body.takeWhile Char.isDigit
      if ds.isEmpty then none else some (sign * (digitsToNat 10 ds : Int))
  | _ =>
    let ds := body.takeWhile Char.isDigit
    if ds.isEmpty then none else some (sign * (digitsToNat 10 ds : Int))

/-- `isDeviceOnline` from src/app/dashboard/page.tsx.  `now` is the value of
`Date.now()` in milliseconds.  When `recorded_at` does not parse, the JS
comparison `now - NaN <= 20000` is false, embedded as the `none` branch. -/
def isDeviceOnline (_device : Device) (latestData : Option DeviceData)
    (now : Int) : Bool :=
  match latestData with
  | none => false
  | some d =>
    match parseIntJS d.recorded_at with
    | none => false
    | some t => decide (now - t * 1000 ≤ 20000)

/-- Outcome of the per-device latest-reading probe inside `fetchDevices`:
an OK response carrying a reading, a non-OK HTTP response, or a thrown
network exception. -/
inductive ProbeResult where
  | ok (data : DeviceData)
  | httpError
  | netError
  deriving DecidableEq, Repr

/-- The boolean stored for one device by the `fetchDevices` status loop:
`isDeviceOnline(device, deviceData)` on success, `false` on either failure. -/
def statusOf (now : Int) (d : Device) : ProbeResult → Bool
  | .ok data => isDeviceOnline d (some data) now
  | .httpError => false
  | .netError => false

/-- Lookup in the status map, embedding JS `obj[key]` on a plain object. -/
def lookupAL : List (String × Bool) → String → Option Bool
  | [], _ => none
  | p :: rest, k => if p.1 = k then some p.2 else lookupAL rest k

/-- Key assignment on the status map, embedding JS `obj[key] = v`: replace
the first binding of the key or append a new one. -/
def insertAL : List (String × Bool) → String → Bool → List (String × Bool)
  | [], k, v => [(k, v)]
  | p :: rest, k, v => if p.1 = k then (k, v) :: rest else p :: insertAL rest k v

/-- The status object built by the loop in `fetchDevices`
(src/app/dashboard/page.tsx, the `for (const device of data)` loop): starts
from the empty object `{}` and assigns one key per device of the fetched
list, in order. -/
def computeStatuses (now : Int) (probes : List (Device × ProbeResult)) :
    List (String × Bool) :=
  probes.foldl (fun m p => insertAL m p.1.device_id (statusOf now p.1 p.2)) []

/-- The `setDeviceStatuses(statuses)` call at the end of the `fetchDevices`
status loop: the previous map is not read; the freshly built object replaces
it wholesale. -/
def fetchDevicesStatusesUpdate (_prev : List (String × Bool)) (now : Int)
    (probes : List (Device × ProbeResult)) : List (String × Bool) :=
  computeStatuses now probes

/-- Dashboard page component state (the `useState` cells touched by
`fetchDeviceData`). -/
structure DashState where
  devices : List Device
  selectedDevice : String
  deviceData : Option DeviceData
  error : String
  deviceStatuses : List (String × Bool)
  dataLoading : Bool
  deriving DecidableEq, Repr

/-- Outcome of the latest-reading fetch in `fetchDeviceData`. -/
inductive FetchOutcome where
  | ok (data : DeviceData)
  | notFound
  | httpError
  | netError
  deriving DecidableEq, Repr

/-- State transition of one completed `fetchDeviceData(deviceId, showLoading)`
call (src/app/dashboard/page.tsx): no-op on an empty id; otherwise the error
is cleared, then the outcome branch runs, and finally `dataLoading` is reset
when `showLoading` was set. -/
def fetchDeviceDataStep (now : Int) (deviceId : String) (showLoading : Bool)
    (outcome : FetchOutcome) (st : DashState) : DashState :=
  if deviceId = "" then st
  else
    let st1 : DashState := { st with error := "" }
    let st2 : DashState :=
      match outcome with
      | .ok data =>
        let stOk : DashState := { st1 with deviceData := some data }
        match st1.devices.find? (fun d => d.device_id = deviceId) with
        | some device =>
          { stOk with deviceStatuses := insertAL stOk.deviceStatuses deviceId (isDeviceOnline device (some data) now) }
        | none => stOk
      | .notFound =>
        { st1 with deviceData := none,
                   error := "No data available for this device",
                   deviceStatuses := insertAL st1.deviceStatuses deviceId false }
      | .httpError =>
        { st1 with deviceData := none, error := "Failed to fetch device data" }
      | .netError =>
        { st1 with deviceData := none, error := "Network error" }
    { st2 with dataLoading := if showLoading then false else st2.dataLoading }

/-- Analytics page component state (the `useState` cells touched by
`fetchRangeData` and `exportData`); dates are epoch milliseconds. -/
structure AnalyticsState where
  devices : List Device
  selectedDevice : String
  rangeData : List RangeData
  error : String
  dataLoading : Bool
  startDate : Option Int
  endDate : Option Int
  deriving DecidableEq, Repr

/-- Outcome of the range fetch in `fetchRangeData`. -/
inductive RangeOutcome where
  | ok (data : List RangeData)
  | httpError
  | netError
  deriving DecidableEq, Repr

/-- State transition of one completed `fetchRangeData()` call
(src/app/analytics/page.tsx): no-op unless a device and both dates are set;
otherwise the error is cleared, the outcome branch runs, and `dataLoading`
is reset.  Note the failure branches leave `rangeData` untouched. -/
def fetchRangeDataStep (outcome : RangeOutcome) (st : AnalyticsState) :
    AnalyticsState :=
  if st.selectedDevice = "" ∨ st.startDate = none ∨ st.endDate = none then st
  else
    let st1 : AnalyticsState := { st with error := "", dataLoading := true }
    let st2 : AnalyticsState :=
      match outcome with
      | .ok data => { st1 with rangeData := data }
      | .httpError => { st1 with error := "Failed to fetch range data" }
      | .netError => { st1 with error := "Network error" }
    { st2 with dataLoading := false }

/-- The eleven chart metrics of `chartConfigs` (src/app/analytics/page.tsx),
identified by their `dataKey`. -/
inductive MetricKey where
  | temperature | humidity | pressure | co | co2 | methane | lpg
  | pm25 | pm10 | noise | light
  deriving DecidableEq, Repr

/-- Field access `d[config.dataKey as keyof RangeData] as number`. -/
def metricProj : MetricKey → RangeData → ℚ
  | .temperature, r => r.temperature
  | .humidity, r => r.humidity
  | .pressure, r => r.pressure
  | .co, r => r.co
  | .co2, r => r.co2
  | .methane, r => r.methane
  | .lpg, r => r.lpg
  | .pm25, r => r.pm25
  | .pm10, r => r.pm10
  | .noise, r => r.noise
  | .light, r => r.light

/-- `const values = rangeData.map((d) => d[config.dataKey])`. -/
def metricValues (rows : List RangeData) (key : MetricKey) : List ℚ :=
  rows.map (metricProj key)

/-- `Math.min(...values)`; `none` stands for the `Infinity` result on an
empty argument list, which the page never reaches (the chart grid renders
only when `rangeData.length > 0`). -/
def mathMinList : List ℚ → Option ℚ
  | [] => none
  | v :: rest => some (rest.foldl min v)

/-- `Math.max(...values)`; `none` stands for `-Infinity` on an empty list. -/
def mathMaxList : List ℚ → Option ℚ
  | [] => none
  | v :: rest => some (rest.foldl max v)

/-- `values.reduce((a, b) => a + b, 0) / values.length`. -/
def avgOf (values : List ℚ) : ℚ :=
  values.foldl (· + ·) 0 / values.length

/-- `getStatusColor(value, type)` from src/app/dashboard/page.tsx: the
switch over the metric type with fixed thresholds; unmatched types fall to
the default gray. -/
def getStatusColor (value : ℚ) (type : String) : String :=
  if type = "temperature" then
    if value < 18 ∨ value > 26 then "text-red-600" else "text-green-600"
  else if type = "humidity" then
    if value < 30 ∨ value > 70 then "text-yellow-600" else "text-green-600"
  else if type = "co" then
    if value > 3 then "text-red-600" else "text-green-600"
  else if type = "pm25" then
    if value > 300 then "text-red-600"
    else if value > 150 then "text-yellow-600"
    else "text-green-600"
  else "text-gray-600"

/-- Left-pad a natural number with zeros to two digits. -/
def pad2 (n : Nat) : String :=
  if n < 10 then "0" ++ toString n else toString n

/-- Left-pad a natural number with zeros to three digits. -/
def pad3 (n : Nat) : String :=
  if n < 10 then "00" ++ toString n
  else if n < 100 then "0" ++ toString n
  else toString n

/-- Left-pad a natural number with zeros to four digits. -/
def pad4 (n : Nat) : String :=
  if n < 10 then "000" ++ toString n
  else if n < 100 then "00" ++ toString n
  else if n < 1000 then "0" ++ toString n
  else toString n

/-- Proleptic-Gregorian civil date from a day count relative to 1970-01-01
(the days-to-date conversion inside JS `Date`). -/
def civilFromDays (z0 : Int) : Int × Int × Int :=
  let z := z0 + 719468
  let era := z.fdiv 146097
  let doe := z - era * 146097
  let yoe := (doe - doe.fdiv 1460 + doe.fdiv 36524 - doe.fdiv 146096).fdiv 365
  let y := yoe + era * 400
  let doy := doe - (365 * yoe + yoe.fdiv 4 - yoe.fdiv 100)
  let mp := (5 * doy + 2).fdiv 153
  let d := doy - (153 * mp + 2).fdiv 5 + 1
  let m := mp + (if mp < 10 then 3 else -9)
  (y + (if m ≤ 2 then 1 else 0), m, d)

/-- `new Date(ms).toISOString()` for an integral millisecond timestamp
(years in the four-digit range, the case reachable from epoch-second
readings). -/
def isoOfMillis (ms : Int) : String :=
  let days := ms.fdiv 86400000
  let msod := (ms - days * 86400000).toNat
  let ymd := civilFromDays days
  pad4 ymd.1.toNat ++ "-" ++ pad2 ymd.2.1.toNat ++ "-" ++ pad2 ymd.2.2.toNat
    ++ "T" ++ pad2 (msod / 3600000) ++ ":" ++ pad2 (msod % 3600000 / 60000)
    ++ ":" ++ pad2 (msod % 60000 / 1000) ++ "." ++ pad3 (msod % 1000) ++ "Z"

/-- JS number-to-string interpolation of a sensor value; exact for the
integral values exercised here, and a rational rendering otherwise. -/
def numStr (q : ℚ) : String :=
  if q.den = 1 then toString q.num
  else toString q.num ++ "/" ++ toString q.den

/-- The CSV header literal of `exportData` (src/app/analytics/page.tsx). -/
def csvHeader : String :=
  "Timestamp,Temperature,Humidity,Pressure,CO,Methane,LPG,PM2.5,PM10,Noise,Light"

/-- One data row of the exported CSV: the row template literal of
`exportData`.  A `recorded_at` that does not parse makes
`new Date(NaN).toISOString()` throw, embedded as `none`. -/
def csvRow (r : RangeData) : Option String :=
  (parseIntJS r.recorded_at).map fun t =>
    isoOfMillis (t * 1000) ++ "," ++ numStr r.temperature ++ ","
      ++ numStr r.humidity ++ "," ++ numStr r.pressure ++ "," ++ numStr r.co
      ++ "," ++ numStr r.methane ++ "," ++ numStr r.lpg ++ ","
      ++ numStr r.pm25 ++ "," ++ numStr r.pm10 ++ "," ++ numStr r.noise
      ++ "," ++ numStr r.light

/-- `csvContent`: the header line followed by one row per reading, joined
with newlines. -/
def csvContent (rows : List RangeData) : Option String :=
  (rows.mapM csvRow).map fun ls => String.intercalate "\n" (csvHeader :: ls)

/-- The downloaded artifact: file name and content. -/
structure CsvFile where
  name : String
  content : String
  deriving DecidableEq, Repr

/-- `format(date, "yyyy-MM-dd")` on an epoch-millisecond instant. -/
def formatYMD (ms : Int) : String :=
  let ymd := civilFromDays (ms.fdiv 86400000)
  pad4 ymd.1.toNat ++ "-" ++ pad2 ymd.2.1.toNat ++ "-" ++ pad2 ymd.2.2.toNat

/-- `exportData` from src/app/analytics/page.tsx: early return on an empty
collection (no blob, no anchor click, no state write), otherwise build the
CSV content and trigger a download named from the selected device and the
date range.  The function never writes component state in the source; the
returned state is the input state.  `none` in the second component means no
file is created (the early return, or a path on which the source throws). -/
def exportData (st : AnalyticsState) : AnalyticsState × Option CsvFile :=
  if st.rangeData.length = 0 then (st, none)
  else
    match st.startDate, st.endDate, csvContent st.rangeData with
    | some s, some e, some content =>
      (st, some ⟨"environmental_data_" ++ st.selectedDevice ++ "_"
                  ++ formatYMD s ++ "_to_" ++ formatYMD e ++ ".csv", content⟩)
    | _, _, _ => (st, none)

/-!  Helper lemmas about the status map and the aggregate folds.  -/

theorem lookupAL_insertAL_self (m : List (String × Bool)) (k : String) (v : Bool) :
    lookupAL (insertAL m k v) k = some v := by
  induction m with
  | nil => simp [insertAL, lookupAL]
  | cons p rest ih =>
    by_cases h : p.1 = k
    · simp [insertAL, h, lookupAL]
    · simp [insertAL, h, lookupAL, ih]

theorem lookupAL_insertAL_ne (m : List (String × Bool)) (k : String) (v : Bool)
    (k' : String) (h : k' ≠ k) :
    lookupAL (insertAL m k v) k' = lookupAL m k' := by
  induction m with
  | nil => simp [insertAL, lookupAL, Ne.symm h]
  | cons p rest ih =>
    by_cases hp : p.1 = k
    · simp [insertAL, hp, lookupAL, Ne.symm h]
    · by_cases hp' : p.1 = k'
      · simp [insertAL, hp, lookupAL, hp', h]
      · simp [insertAL, hp, lookupAL, hp', ih]

theorem lookupAL_foldl_insert_notmem (now : Int) :
    ∀ (probes : List (Device × ProbeResult)) (m : List (String × Bool)) (k : String),
    (∀ p ∈ probes, p.1.device_id ≠ k) →
    lookupAL (probes.foldl
        (fun m p => insertAL m p.1.device_id (statusOf now p.1 p.2)) m) k
      = lookupAL m k := by
  intro probes
  induction probes with
  | nil => intro m k _; rfl
  | cons q rest ih =>
    intro m k h
    rw [List.foldl_cons, ih _ _ (fun p hp => h p (List.mem_cons_of_mem _ hp)),
        lookupAL_insertAL_ne _ _ _ _ (Ne.symm (h q (List.mem_cons_self _ _)))]

theorem lookupAL_foldl_insert_mem (now : Int) :
    ∀ (probes : List (Device × ProbeResult)) (m : List (String × Bool)),
    (probes.map (fun p => p.1.device_id)).Nodup →
    ∀ (d : Device) (pr : ProbeResult), (d, pr) ∈ probes →
    lookupAL (probes.foldl
        (fun m p => insertAL m p.1.device_id (statusOf now p.1 p.2)) m) d.device_id
      = some (statusOf now d pr) := by
  intro probes
  induction probes with
  | nil => intro m _ d pr hmem; cases hmem
  | cons q rest ih =>
    intro m hnd d pr hmem
    rw [List.map_cons, List.nodup_cons] at hnd
    rw [List.foldl_cons]
    rcases List.mem_cons.mp hmem with heq | hmem'
    · subst heq
      have hne : ∀ p ∈ rest, p.1.device_id ≠ d.device_id := by
        intro p hp hcontra
        exact hnd.1 (hcontra ▸ List.mem_map_of_mem _ hp)
      rw [lookupAL_foldl_insert_notmem now rest _ _ hne, lookupAL_insertAL_self]
    · exact ih _ hnd.2 d pr hmem'

theorem foldl_min_le_init (l : List ℚ) : ∀ a : ℚ, l.foldl min a ≤ a := by
  induction l with
  | nil => intro a; simp
  | cons h t ih =>
    intro a
    rw [List.foldl_cons]
    exact le_trans (ih _) (min_le_left _ _)

theorem foldl_min_le_mem (l : List ℚ) : ∀ (a x : ℚ), x ∈ l → l.foldl min a ≤ x := by
  induction l with
  | nil => intro a x hx; cases hx
  | cons h t ih =>
    intro a x hx
    rw [List.foldl_cons]
    rcases List.mem_cons.mp hx with rfl | hx'
    · exact le_trans (foldl_min_le_init t _) (min_le_right _ _)
    · exact ih _ _ hx'

theorem foldl_min_attained (l : List ℚ) :
    ∀ a : ℚ, l.foldl min a = a ∨ l.foldl min a ∈ l := by
  induction l with
  | nil => intro a; left; rfl
  | cons h t ih =>
    intro a
    rw [List.foldl_cons]
    rcases ih (min a h) with heq | hmem
    · rcases min_choice a h with hc | hc
      · left; rw [heq, hc]
      · right; rw [heq, hc]; exact List.mem_cons_self _ _
    · right; exact List.mem_cons_of_mem _ hmem

theorem foldl_max_ge_init (l : List ℚ) : ∀ a : ℚ, a ≤ l.foldl max a := by
  induction l with
  | nil => intro a; simp
  | cons h t ih =>
    intro a
    rw [List.foldl_cons]
    exact le_trans (le_max_left _ _) (ih _)

theorem foldl_max_ge_mem (l : List ℚ) : ∀ (a x : ℚ), x ∈ l → x ≤ l.foldl max a := by
  induction l with
  | nil => intro a x hx; cases hx
  | cons h t ih =>
    intro a x hx
    rw [List.foldl_cons]
    rcases List.mem_cons.mp hx with rfl | hx'
    · exact le_trans (le_max_right _ _) (foldl_max_ge_init t _)
    · exact ih _ _ hx'

theorem foldl_max_attained (l : List ℚ) :
    ∀ a : ℚ, l.foldl max a = a ∨ l.foldl max a ∈ l := by
  induction l with
  | nil => intro a; left; rfl
  | cons h t ih =>
    intro a
    rw [List.foldl_cons]
    rcases ih (max a h) with heq | hmem
    · rcases max_choice a h with hc | hc
      · left; rw [heq, hc]
      · right; rw [heq, hc]; exact List.mem_cons_self _ _
    · right; exact List.mem_cons_of_mem _ hmem

theorem foldl_add_eq_sum (l : List ℚ) : ∀ a : ℚ, l.foldl (· + ·) a = a + l.sum := by
  induction l with
  | nil => intro a; simp
  | cons h t ih =>
    intro a
    rw [List.foldl_cons, ih, List.sum_cons]
    ring

/-!  Concrete fixtures used by the witness theorems.  -/

/-- Sample device "d1". -/
def devW : Device :=
  ⟨"d1", "Device 1", "356938035643809", true, "u1", "2024-01-01", "2024-01-01"⟩

/-- Sample device "d2". -/
def devW2 : Device :=
  ⟨"d2", "Device 2", "356938035643810", true, "u1", "2024-01-01", "2024-01-01"⟩

/-- A reading recorded at epoch second 10. -/
def readW10 : DeviceData :=
  ⟨"r1", "d1", 20, 50, 1013, 1, 400, 2, 1, 10, 20, 40, 100, "10"⟩

/-- A reading recorded at epoch second 0. -/
def readW0 : DeviceData :=
  ⟨"r2", "d2", 20, 50, 1013, 1, 400, 2, 1, 10, 20, 40, 100, "0"⟩

/-- A reading whose timestamp text does not parse as an integer. -/
def readWBad : DeviceData :=
  ⟨"r3", "d1", 20, 50, 1013, 1, 400, 2, 1, 10, 20, 40, 100, "abc"⟩

/-- A dashboard state with an existing status entry for "d2". -/
def stW : DashState := ⟨[], "", none, "", [("d2", true)], false⟩

/-- A range reading with the given temperature, all other sensors zero. -/
def rowTemp (temp : ℚ) : RangeData :=
  ⟨"", "d1", temp, 0, 0, 0, 0, 0, 0, 0, 0, 0, 0, "0"⟩

/-- The three-reading collection of the spec scenario. -/
def rows3 : List RangeData := [rowTemp 20, rowTemp 22, rowTemp 24]

/-- An all-zero range reading recorded at epoch second 0. -/
def rowW : RangeData := ⟨"", "d1", 0, 0, 0, 0, 0, 0, 0, 0, 0, 0, 0, "0"⟩

/-!  The claim theorems.  -/

/-- C1: the online-status evaluator returns false when no latest reading is
supplied; with a reading whose `recorded_at` parses to `t` it returns true
exactly when `now - t * 1000 ≤ 20000`; in particular a timestamp in the
future (negative elapsed value) is reported online. -/
theorem C1_isDeviceOnline_threshold (now : Int) (dev : Device) :
    (isDeviceOnline dev none now = false) ∧
    (∀ (r : DeviceData) (t : Int), parseIntJS r.recorded_at = some t →
      ((isDeviceOnline dev (some r) now = true) ↔ now - t * 1000 ≤ 20000)) ∧
    (∀ (r : DeviceData) (t : Int), parseIntJS r.recorded_at = some t →
      now - t * 1000 < 0 → isDeviceOnline dev (some r) now = true) := by
  refine ⟨rfl, ?_, ?_⟩
  · intro r t ht
    simp [isDeviceOnline, ht]
  · intro r t ht hfut
    simp only [isDeviceOnline, ht, decide_eq_true_eq]
    omega

/-- Witness for C1 at `now = 0` and a reading recorded at second 10: the
elapsed value is negative and the device is reported online. -/
theorem C1_witness :
    parseIntJS readW10.recorded_at = some 10 ∧
    ((0 : Int) - 10 * 1000 < 0) ∧
    isDeviceOnline devW (some readW10) 0 = true :=
  ⟨by decide, by decide,
   (C1_isDeviceOnline_threshold 0 devW).2.2 readW10 10 (by decide) (by decide)⟩

/-- C10: the online-status evaluator is total; a reading whose `recorded_at`
does not parse as an integer (JS `NaN`) makes every comparison false and the
device is reported offline. -/
theorem C10_isDeviceOnline_nan (now : Int) (dev : Device) (r : DeviceData)
    (h : parseIntJS r.recorded_at = none) :
    isDeviceOnline dev (some r) now = false := by
  simp [isDeviceOnline, h]

/-- Witness for C10 at the unparseable timestamp text "abc". -/
theorem C10_witness :
    parseIntJS readWBad.recorded_at = none ∧
    isDeviceOnline devW (some readWBad) 0 = false :=
  ⟨by decide, C10_isDeviceOnline_nan 0 devW readWBad (by decide)⟩

/-- C7: the color classification is a pure function of (type, value):
temperature outside [18, 26] is the alert color and inside it the safe
color; CO above 3 is the alert color; PM2.5 above 300 is the alert color
and above 150 (but not above 300) the warning color; every type without a
threshold case yields the neutral color. -/
theorem C7_getStatusColor_table (v : ℚ) (t : String) :
    (getStatusColor v "temperature"
      = if v < 18 ∨ v > 26 then "text-red-600" else "text-green-600") ∧
    (getStatusColor v "co"
      = if v > 3 then "text-red-600" else "text-green-600") ∧
    (getStatusColor v "pm25"
      = if v > 300 then "text-red-600"
        else if v > 150 then "text-yellow-600" else "text-green-600") ∧
    (t ≠ "temperature" → t ≠ "humidity" → t ≠ "co" → t ≠ "pm25" →
      getStatusColor v t = "text-gray-600") := by
  refine ⟨by simp [getStatusColor], by simp [getStatusColor],
          by simp [getStatusColor], ?_⟩
  intro h1 h2 h3 h4
  simp [getStatusColor, h1, h2, h3, h4]

/-- Witness for C7 at the threshold-free metric type "noise". -/
theorem C7_witness : getStatusColor 30 "noise" = "text-gray-600" :=
  (C7_getStatusColor_table 30 "noise").2.2.2
    (by decide) (by decide) (by decide) (by decide)

/-- C3: an HTTP 404 from the latest-reading fetch clears the stored reading,
sets exactly the message "No data available for this device" (distinct from
the generic failure messages), and sets the status entry of the device to
false. -/
theorem C3_fetch404 (now : Int) (st : DashState) (deviceId : String)
    (showLoading : Bool) (h : deviceId ≠ "") :
    (fetchDeviceDataStep now deviceId showLoading .notFound st).deviceData = none ∧
    (fetchDeviceDataStep now deviceId showLoading .notFound st).error
      = "No data available for this device" ∧
    lookupAL (fetchDeviceDataStep now deviceId showLoading .notFound st).deviceStatuses
        deviceId = some false ∧
    "No data available for this device" ≠ "Failed to fetch device data" ∧
    "No data available for this device" ≠ "Network error" := by
  refine ⟨?_, ?_, ?_, by decide, by decide⟩ <;>
    simp [fetchDeviceDataStep, h, lookupAL_insertAL_self]

/-- Witness for C3 at the device id "d1" and an empty starting state. -/
theorem C3_witness :
    (fetchDeviceDataStep 0 "d1" true .notFound stW).deviceData = none ∧
    (fetchDeviceDataStep 0 "d1" true .notFound stW).error
      = "No data available for this device" ∧
    lookupAL (fetchDeviceDataStep 0 "d1" true .notFound stW).deviceStatuses "d1"
      = some false :=
  ⟨(C3_fetch404 0 stW "d1" true (by decide)).1,
   (C3_fetch404 0 stW "d1" true (by decide)).2.1,
   (C3_fetch404 0 stW "d1" true (by decide)).2.2.1⟩

/-- C2: after a device-status refresh whose list fetch succeeded, the built
status map has an entry for every probed device of the list (so an earlier
failure does not stop later devices from being processed), and the entry for
a device whose probe failed (non-OK response or network exception) is false. -/
theorem C2_statusMapCoverage (now : Int) (probes : List (Device × ProbeResult))
    (hnd : (probes.map (fun p => p.1.device_id)).Nodup)
    (d : Device) (pr : ProbeResult) (hmem : (d, pr) ∈ probes) :
    lookupAL (computeStatuses now probes) d.device_id = some (statusOf now d pr) ∧
    (pr = .httpError ∨ pr = .netError →
      lookupAL (computeStatuses now probes) d.device_id = some false) := by
  have h := lookupAL_foldl_insert_mem now probes [] hnd d pr hmem
  refine ⟨h, ?_⟩
  rintro (rfl | rfl) <;> exact h

/-- Witness for C2: the probe of "d1" fails and the later device "d2"
still gets its (online) entry. -/
theorem C2_witness :
    lookupAL (computeStatuses 0 [(devW, .httpError), (devW2, .ok readW0)]) "d1"
      = some false ∧
    lookupAL (computeStatuses 0 [(devW, .httpError), (devW2, .ok readW0)]) "d2"
      = some true :=
  ⟨(C2_statusMapCoverage 0 [(devW, .httpError), (devW2, .ok readW0)]
      (by decide) devW .httpError (by decide)).2 (Or.inl rfl),
   (C2_statusMapCoverage 0 [(devW, .httpError), (devW2, .ok readW0)]
      (by decide) devW2 (.ok readW0) (by decide)).1⟩

/-- C4 counterexample: the claim says every refresh path merges the status
map per key, leaving untouched device identifiers unchanged; but the
device-list refresh path replaces the map wholesale, so the entry of the
device "d2", absent from the fetched list, is dropped. -/
theorem C4_counterexample :
    lookupAL (fetchDevicesStatusesUpdate [("d2", true)] 0
        [(devW, ProbeResult.httpError)]) "d2"
      ≠ lookupAL [("d2", true)] "d2" := by
  decide

/-- C4 (amended): the single-device refresh path (`fetchDeviceData`) updates
the status map by per-key merge, leaving every other key unchanged; the
device-list refresh path (`fetchDevices`) instead replaces the map
wholesale, independently of its previous value. -/
theorem C4_statusMapUpdateModes :
    (∀ (now : Int) (deviceId : String) (showLoading : Bool)
       (outcome : FetchOutcome) (st : DashState) (k : String), k ≠ deviceId →
       lookupAL (fetchDeviceDataStep now deviceId showLoading outcome st).deviceStatuses k
         = lookupAL st.deviceStatuses k) ∧
    (∀ (prev prev2 : List (String × Bool)) (now : Int)
       (probes : List (Device × ProbeResult)),
       fetchDevicesStatusesUpdate prev now probes
         = fetchDevicesStatusesUpdate prev2 now probes) := by
  constructor
  · intro now deviceId showLoading outcome st k hk
    by_cases hid : deviceId = ""
    · simp [fetchDeviceDataStep, hid]
    · cases outcome with
      | ok data =>
        cases hf : st.devices.find? (fun d => d.device_id = deviceId) <;>
          simp [fetchDeviceDataStep, hid, hf, lookupAL_insertAL_ne _ _ _ _ hk]
      | notFound =>
        simp [fetchDeviceDataStep, hid, lookupAL_insertAL_ne _ _ _ _ hk]
      | httpError => simp [fetchDeviceDataStep, hid]
      | netError => simp [fetchDeviceDataStep, hid]
  · intro prev prev2 now probes
    rfl

/-- Witness for C4 (amended) at the key "d2" and a 404 refresh of "d1". -/
theorem C4_witness :
    lookupAL (fetchDeviceDataStep 0 "d1" true FetchOutcome.notFound stW).deviceStatuses
        "d2"
      = lookupAL stW.deviceStatuses "d2" :=
  C4_statusMapUpdateModes.1 0 "d1" true .notFound stW "d2" (by decide)

/-- C5: a failed range fetch leaves the previously loaded range collection
unchanged, and (when the fetch actually ran, i.e. a device and both dates
were set) surfaces the generic error message of its failure kind. -/
theorem C5_rangeFailureKeepsData (st : AnalyticsState) (outcome : RangeOutcome)
    (hfail : outcome = .httpError ∨ outcome = .netError) :
    (fetchRangeDataStep outcome st).rangeData = st.rangeData ∧
    (st.selectedDevice ≠ "" → st.startDate ≠ none → st.endDate ≠ none →
      ((outcome = .httpError →
         (fetchRangeDataStep outcome st).error = "Failed to fetch range data") ∧
       (outcome = .netError →
         (fetchRangeDataStep outcome st).error = "Network error"))) := by
  constructor
  · rcases hfail with rfl | rfl <;>
      · simp only [fetchRangeDataStep]
        split <;> rfl
  · intro h1 h2 h3
    rcases hfail with rfl | rfl <;>
      simp_all [fetchRangeDataStep]

/-- Witness for C5: an HTTP failure on a state holding one loaded reading. -/
theorem C5_witness :
    (fetchRangeDataStep .httpError
        ⟨[], "d1", [rowW], "", false, some 0, some 1000⟩).rangeData = [rowW] ∧
    (fetchRangeDataStep .httpError
        ⟨[], "d1", [rowW], "", false, some 0, some 1000⟩).error
      = "Failed to fetch range data" :=
  ⟨(C5_rangeFailureKeepsData ⟨[], "d1", [rowW], "", false, some 0, some 1000⟩
      .httpError (Or.inl rfl)).1,
   ((C5_rangeFailureKeepsData ⟨[], "d1", [rowW], "", false, some 0, some 1000⟩
      .httpError (Or.inl rfl)).2 (by decide) (by decide) (by decide)).1 rfl⟩

/-- C9: invoking the CSV export never modifies component state, and with an
empty loaded collection it creates no file. -/
theorem C9_exportEmptyNoop (st : AnalyticsState) :
    (exportData st).1 = st ∧
    (st.rangeData = [] → (exportData st).2 = none) := by
  constructor
  · simp only [exportData]
    split
    · rfl
    · split <;> rfl
  · intro h
    simp [exportData, h]

/-- Witness for C9 at an empty loaded collection. -/
theorem C9_witness :
    (exportData ⟨[], "d1", [], "", false, some 0, some 0⟩).2 = none :=
  (C9_exportEmptyNoop ⟨[], "d1", [], "", false, some 0, some 0⟩).2 rfl

/-- C6: for a nonempty loaded collection and every metric, the displayed
minimum and maximum exist, the minimum is attained and bounds every value
from below, the maximum is attained and bounds every value from above, and
the displayed average is the sum of the values divided by their count. -/
theorem C6_statsCorrect (rows : List RangeData) (key : MetricKey)
    (hne : rows ≠ []) :
    (mathMinList (metricValues rows key)).isSome = true ∧
    (mathMaxList (metricValues rows key)).isSome = true ∧
    (∀ m : ℚ, mathMinList (metricValues rows key) = some m →
      m ∈ metricValues rows key ∧ ∀ x ∈ metricValues rows key, m ≤ x) ∧
    (∀ M : ℚ, mathMaxList (metricValues rows key) = some M →
      M ∈ metricValues rows key ∧ ∀ x ∈ metricValues rows key, x ≤ M) ∧
    avgOf (metricValues rows key)
      = (metricValues rows key).sum / (metricValues rows key).length := by
  rcases rows with _ | ⟨r, rs⟩
  · exact absurd rfl hne
  · rw [show metricValues (r :: rs) key
        = metricProj key r :: rs.map (metricProj key) from rfl]
    refine ⟨rfl, rfl, ?_, ?_, ?_⟩
    · intro m hm
      have hm' : (rs.map (metricProj key)).foldl min (metricProj key r) = m :=
        Option.some.inj hm
      constructor
      · rcases foldl_min_attained (rs.map (metricProj key)) (metricProj key r)
          with he | hmem
        · rw [← hm', he]; exact List.mem_cons_self _ _
        · rw [← hm']; exact List.mem_cons_of_mem _ hmem
      · intro x hx
        rcases List.mem_cons.mp hx with rfl | hx'
        · rw [← hm']; exact foldl_min_le_init _ _
        · rw [← hm']; exact foldl_min_le_mem _ _ _ hx'
    · intro M hM
      have hM' : (rs.map (metricProj key)).foldl max (metricProj key r) = M :=
        Option.some.inj hM
      constructor
      · rcases foldl_max_attained (rs.map (metricProj key)) (metricProj key r)
          with he | hmem
        · rw [← hM', he]; exact List.mem_cons_self _ _
        · rw [← hM']; exact List.mem_cons_of_mem _ hmem
      · intro x hx
        rcases List.mem_cons.mp hx with rfl | hx'
        · rw [← hM']; exact foldl_max_ge_init _ _
        · rw [← hM']; exact foldl_max_ge_mem _ _ _ hx'
    · simp [avgOf, foldl_add_eq_sum]

/-- Witness for C6: three readings with temperature values [20, 22, 24]
yield min 20, average 22 and max 24. -/
theorem C6_witness :
    mathMinList (metricValues rows3 MetricKey.temperature) = some 20 ∧
    avgOf (metricValues rows3 MetricKey.temperature) = 22 ∧
    mathMaxList (metricValues rows3 MetricKey.temperature) = some 24 ∧
    (20 : ℚ) ∈ metricValues rows3 MetricKey.temperature :=
  ⟨by decide,
   by norm_num [avgOf, metricValues, rows3, rowTemp, metricProj],
   by decide,
   ((C6_statsCorrect rows3 MetricKey.temperature (by decide)).2.2.1
      20 (by decide)).1⟩

/-- C8: an exported CSV is the exact header line
"Timestamp,Temperature,Humidity,Pressure,CO,Methane,LPG,PM2.5,PM10,Noise,Light"
followed by one row per reading, each row serializing in that fixed order
the ISO date-time text of `recorded_at` and then the ten sensor fields;
the co2 field of a reading never influences its row. -/
theorem C8_csvFormat (rows : List RangeData) (c : String)
    (h : csvContent rows = some c) :
    (∀ ls : List String, rows.mapM csvRow = some ls →
      c = String.intercalate "\n"
        ("Timestamp,Temperature,Humidity,Pressure,CO,Methane,LPG,PM2.5,PM10,Noise,Light"
          :: ls)) ∧
    (rows.mapM csvRow).isSome = true ∧
    (∀ (r : RangeData) (t : Int), parseIntJS r.recorded_at = some t →
      csvRow r = some (isoOfMillis (t * 1000) ++ "," ++ numStr r.temperature
        ++ "," ++ numStr r.humidity ++ "," ++ numStr r.pressure ++ ","
        ++ numStr r.co ++ "," ++ numStr r.methane ++ "," ++ numStr r.lpg
        ++ "," ++ numStr r.pm25 ++ "," ++ numStr r.pm10 ++ ","
        ++ numStr r.noise ++ "," ++ numStr r.light)) ∧
    (∀ (r : RangeData) (v : ℚ), csvRow { r with co2 := v } = csvRow r) := by
  rcases Option.map_eq_some'.mp h with ⟨ls0, hls0, hc⟩
  refine ⟨?_, ?_, ?_, ?_⟩
  · intro ls hls
    rw [hls] at hls0
    cases Option.some.inj hls0
    exact hc.symm
  · rw [hls0]; rfl
  · intro r t ht
    simp [csvRow, ht]
  · intro r v
    simp [csvRow]

/-- Witness for C8 at a single all-zero reading recorded at epoch second 0. -/
theorem C8_witness :
    csvContent [rowW]
      = some ("Timestamp,Temperature,Humidity,Pressure,CO,Methane,LPG,PM2.5,PM10,Noise,Light\n1970-01-01T00:00:00.000Z,0,0,0,0,0,0,0,0,0,0") ∧
    csvRow { rowW with co2 := 99 } = csvRow rowW :=
  ⟨by decide,
   (C8_csvFormat [rowW]
      "Timestamp,Temperature,Humidity,Pressure,CO,Methane,LPG,PM2.5,PM10,Noise,Light\n1970-01-01T00:00:00.000Z,0,0,0,0,0,0,0,0,0,0"
      (by decide)).2.2.2 rowW 99⟩

end EnvQMon
